import Mathlib

/-!
Verification of the toast notification library (`toast.go`).

The development embeds the program shallowly:

* `Notification` and `Action` are the two data structures of the package.
* The fixed PowerShell/XML template of the package (parsed once in `init`) is
  embedded as a term `toastTemplate` of a small template AST `Node`, and
  `execNode` implements the semantics of the Go `text/template` constructs
  the template uses (literal text, `{{.Field}}` substitution, `{{if}}` with
  string/slice truthiness, `{{range}}` over the action slice).
* The effectful layer (registry, temporary file, subprocess, UUID
  generation) is modelled by explicit state passing: the registry is an
  association list of key paths to value lists, the filesystem is the list
  of existing paths, and the outcomes of the fallible external calls are
  supplied by environment records (`InvokeEnv`, `PushEnv`).
-/

namespace toast

/-- Structure `Action` from toast.go: an actionable button with activation type,
label and arguments. -/
structure Action where
  «Type» : String
  Label : String
  Arguments : String
deriving Repr, DecidableEq

/-- Structure `Notification` from toast.go. -/
structure Notification where
  AppID : String
  Title : String
  Message : String
  Icon : String
  Actions : List Action
  Persist : Bool
deriving Repr, DecidableEq

/-- Notification fields referenced by the template via `{{.Field}}`. -/
inductive TField where
  | appID
  | title
  | message
  | icon
deriving Repr, DecidableEq

/-- Action fields referenced inside the `{{range .Actions}}` body. -/
inductive AField where
  | atype
  | albl
  | aargs
deriving Repr, DecidableEq

/-- The template-AST constructs used by the template of toast.go: literal text,
field substitution, action-field substitution (valid inside a range),
sequencing, `{{if .Field}}...{{else}}...{{end}}` on a string field,
`{{if .Actions}}...{{end}}` on the action slice, and
`{{range .Actions}}...{{end}}`. -/
inductive Node where
  | text (s : String)
  | field (f : TField)
  | afield (f : AField)
  | seq (a b : Node)
  | condF (f : TField) (t e : Node)
  | condActions (t e : Node)
  | rangeActions (body : Node)
deriving Repr

/-- Value of a notification field, as read by the template engine. -/
def TField.get (f : TField) (n : Notification) : String :=
  match f with
  | .appID => n.AppID
  | .title => n.Title
  | .message => n.Message
  | .icon => n.Icon

/-- Value of an action field, as read by the template engine. -/
def AField.get (f : AField) (a : Action) : String :=
  match f with
  | .atype => a.«Type»
  | .albl => a.Label
  | .aargs => a.Arguments

/-- Execution of a template node against a notification, in the semantics of
Go `text/template`: a string field is truthy iff non-empty, a slice is
truthy iff non-empty, and `range` concatenates the body rendered once per
element with that element as the dot context. -/
def execNode (n : Notification) (ctx : Option Action) : Node → String
  | .text s => s
  | .field f => f.get n
  | .afield f =>
    match ctx with
    | some a => f.get a
    | none => ""
  | .seq a b => execNode n ctx a ++ execNode n ctx b
  | .condF f t e => if f.get n = "" then execNode n ctx e else execNode n ctx t
  | .condActions t e => if n.Actions.isEmpty then execNode n ctx e else execNode n ctx t
  | .rangeActions body => String.join (n.Actions.map (fun a => execNode n (some a) body))

/-! Literal text segments of the template, exactly as they appear between
the `{{...}}` actions of the raw template string in toast.go (lines 19-55).
Apostrophes are written `\x27`. -/

/-- Text from the start of the template up to `{{if .AppID}}`. -/
def tHead : String :=
  "\n[Windows.UI.Notifications.ToastNotificationManager, Windows.UI.Notifications, ContentType = WindowsRuntime] | Out-Null\n[Windows.UI.Notifications.ToastNotification, Windows.UI.Notifications, ContentType = WindowsRuntime] | Out-Null\n[Windows.Data.Xml.Dom.XmlDocument, Windows.Data.Xml.Dom.XmlDocument, ContentType = WindowsRuntime] | Out-Null\n\n$APP_ID = \x27"

/-- Text between the AppID conditional and `{{if .Icon}}`. -/
def t2 : String :=
  "\x27\n\n$template = @\"\n<toast>\n    <visual>\n        <binding template=\"ToastGeneric\">\n            "

/-- Text of the icon branch before `{{.Icon}}`. -/
def iconPre : String := "\n            <image placement=\"appLogoOverride\" src=\""

/-- Text of the icon branch after `{{.Icon}}`. -/
def iconPost : String := "\" />\n            "

/-- Text between the icon conditional and `{{if .Title}}`. -/
def t3 : String := "\n            "

/-- Text of the title branch before `{{.Title}}`. -/
def titlePre : String := "\n            <text>"

/-- Text of the title branch after `{{.Title}}`. -/
def titlePost : String := "</text>\n            "

/-- Text between the title conditional and `{{if .Message}}`. -/
def t4 : String := "\n            "

/-- Text of the message branch before `{{.Message}}`. -/
def msgPre : String := "\n            <text>"

/-- Text of the message branch after `{{.Message}}`. -/
def msgPost : String := "</text>\n            "

/-- Text between the message conditional and `{{if .Actions}}`. -/
def t5 : String := "\n        </binding>\n    </visual>\n    "

/-- Text of the actions branch before `{{range .Actions}}`. -/
def actsOpen : String := "\n    <actions>\n        "

/-- Range-body text before `{{.Type}}`. -/
def actPre1 : String := "\n        <action activationType=\""

/-- Range-body text between `{{.Type}}` and `{{.Label}}`. -/
def actPre2 : String := "\" content=\""

/-- Range-body text between `{{.Label}}` and `{{.Arguments}}`. -/
def actPre3 : String := "\" arguments=\""

/-- Range-body text after `{{.Arguments}}`. -/
def actPost : String := "\" />\n        "

/-- Text of the actions branch after the range `{{end}}`. -/
def actsClose : String := "\n    </actions>\n    "

/-- Text from the actions conditional `{{end}}` to the end of the template. -/
def tTail : String :=
  "\n</toast>\n\"@\n\n$xml = New-Object Windows.Data.Xml.Dom.XmlDocument\n$xml.LoadXml($template)\n$toast = New-Object Windows.UI.Notifications.ToastNotification $xml\n[Windows.UI.Notifications.ToastNotificationManager]::CreateToastNotifier($APP_ID).Show($toast)\n    "

/-- The parsed template built by `init()` in toast.go, as a template AST. -/
def toastTemplate : Node :=
  .seq (.text tHead)
  (.seq (.condF .appID (.field .appID) (.text "io.github.go-toast.toast"))
  (.seq (.text t2)
  (.seq (.condF .icon
          (.seq (.text iconPre) (.seq (.field .icon) (.text iconPost)))
          (.text ""))
  (.seq (.text t3)
  (.seq (.condF .title
          (.seq (.text titlePre) (.seq (.field .title) (.text titlePost)))
          (.text ""))
  (.seq (.text t4)
  (.seq (.condF .message
          (.seq (.text msgPre) (.seq (.field .message) (.text msgPost)))
          (.text ""))
  (.seq (.text t5)
  (.seq (.condActions
          (.seq (.text actsOpen)
          (.seq (.rangeActions
                  (.seq (.text actPre1)
                  (.seq (.afield .atype)
                  (.seq (.text actPre2)
                  (.seq (.afield .albl)
                  (.seq (.text actPre3)
                  (.seq (.afield .aargs) (.text actPost))))))))
          (.text actsClose)))
          (.text ""))
  (.text tTail))))))))))

/-- Rendering `toastTemplate.Execute` on a notification: fill the fixed template. -/
def executeTemplate (n : Notification) : String :=
  execNode n none toastTemplate

/-! Characterization of the rendered script as a concatenation of sections,
one per template conditional, used to state the claims. -/

/-- The default app identifier from line 24 of toast.go. -/
def defaultAppID : String := "io.github.go-toast.toast"

/-- The identifier substituted into the `$APP_ID` line. -/
def appIdValue (s : String) : String := if s = "" then defaultAppID else s

/-- The rendered icon section: empty iff `Icon` is empty. -/
def iconSection (s : String) : String :=
  if s = "" then "" else iconPre ++ s ++ iconPost

/-- The rendered title section: empty iff `Title` is empty. -/
def titleSection (s : String) : String :=
  if s = "" then "" else titlePre ++ s ++ titlePost

/-- The rendered message section: empty iff `Message` is empty. -/
def messageSection (s : String) : String :=
  if s = "" then "" else msgPre ++ s ++ msgPost

/-- The action element rendered for one `Action`, carrying its `Type`,
`Label` and `Arguments` verbatim. -/
def actionElem (a : Action) : String :=
  actPre1 ++ a.«Type» ++ actPre2 ++ a.Label ++ actPre3 ++ a.Arguments ++ actPost

/-- The rendered actions section: absent iff `Actions` is empty, otherwise
one action element per button, in order. -/
def actionsSection (l : List Action) : String :=
  if l.isEmpty then "" else actsOpen ++ String.join (l.map actionElem) ++ actsClose

/-- The rendered script, written as the concatenation of its sections. -/
def renderedScript (n : Notification) : String :=
  tHead ++ appIdValue n.AppID ++ t2 ++ iconSection n.Icon ++ t3
    ++ titleSection n.Title ++ t4 ++ messageSection n.Message ++ t5
    ++ actionsSection n.Actions ++ tTail

/-! The effectful layer. The registry package, the filesystem, the UUID
generator and the subprocess runner are external to this repository; their
observable behavior is modelled from the spec (sections 4.2, 4.3, 6), with
the outcomes of the fallible calls supplied by environment records. -/

/-- Opaque error values (Go `error`). -/
abbrev Err := String

/-- The value list of one registry key: value name to DWORD data. -/
abbrev RegValues := List (String × Nat)

/-- Modelled from the spec: the registry is a persistent key-value store,
a map from key path to a list of named values. -/
abbrev Registry := List (String × RegValues)

/-- Whether a key path exists in the registry. -/
def regHasKey (reg : Registry) (path : String) : Bool :=
  reg.any (fun kv => kv.1 == path)

/-- Modelled from the spec: `registry.CreateKey` creates the key
idempotently (an existing key is left unchanged). -/
def createKey (reg : Registry) (path : String) : Registry :=
  if regHasKey reg path then reg else (path, []) :: reg

/-- Modelled from the spec: `SetDWordValue` sets a named DWORD value on an
existing key, replacing any previous value of that name. -/
def setDWordValue (reg : Registry) (path name : String) (v : Nat) : Registry :=
  reg.map (fun kv =>
    if kv.1 == path then (kv.1, (name, v) :: kv.2.filter (fun nv => nv.1 != name)) else kv)

/-- Modelled from the spec: `registry.DeleteKey` removes the key; deleting
an absent key changes nothing (the resulting error is ignored by Push). -/
def deleteKey (reg : Registry) (path : String) : Registry :=
  reg.filter (fun kv => kv.1 != path)

/-- Look up a named value under a key path. -/
def regGetValue (reg : Registry) (path name : String) : Option Nat :=
  match reg.find? (fun kv => kv.1 == path) with
  | none => none
  | some kv => (kv.2.find? (fun nv => nv.1 == name)).map (fun nv => nv.2)

/-- The fixed settings path of toast.go (`Push`, lines 125 and 130). -/
def settingsPath : String :=
  "SOFTWARE\\Microsoft\\Windows\\CurrentVersion\\Notifications\\Settings\\"

/-- The registry step of `Push` (toast.go lines 123-131): on Persist, create
the key of the AppID under the settings path and set `ShowInActionCenter` to 1;
otherwise delete that key. -/
def pushRegistry (reg : Registry) (n : Notification) : Registry :=
  if n.Persist then
    setDWordValue (createKey reg (settingsPath ++ n.AppID))
      (settingsPath ++ n.AppID) "ShowInActionCenter" 1
  else
    deleteKey reg (settingsPath ++ n.AppID)

/-- The filesystem, as the list of existing file paths. -/
abbrev FS := List String

/-- Modelled from the spec: `os.Remove` deletes the path; removing an
absent path leaves the filesystem unchanged (its error is discarded by the
deferred call). -/
def osRemove (fs : FS) (p : String) : FS :=
  fs.filter (fun q => q != p)

/-- Outcomes of the external calls made by one `invokeTemporaryScript`
run: the UUID drawn (with the error `uuid.NewV4` may also report), the OS
temporary directory, and the results of the file write and of running the
interpreter process (`runErr = none` iff the process started and exited
with status zero). -/
structure InvokeEnv where
  uuidStr : String
  uuidErr : Option Err
  tempDir : String
  writeErr : Option Err
  runErr : Option Err
deriving Repr, DecidableEq

/-- Modelled from the spec: `uuid.NewV4` returns the generated identifier
together with a possible error; the identifier is usable even in the error
case. -/
def NewV4 (env : InvokeEnv) : String × Option Err :=
  (env.uuidStr, env.uuidErr)

/-- The temporary file path `filepath.Join(os.TempDir(), id.String()+".ps1")`
(toast.go line 139); the error component of `NewV4` is discarded, the
identifier is used unconditionally. -/
def tempFileName (env : InvokeEnv) : String :=
  env.tempDir ++ "\\" ++ (NewV4 env).1 ++ ".ps1"

/-- Function `invokeTemporaryScript` (toast.go lines 137-149): build the temporary
file name from a fresh UUID (its generation error is discarded), write the
script, run PowerShell on it, and remove the file on every exit path (the
deferred `os.Remove`). Returns the error of the first failing step paired
with the resulting filesystem. -/
def invokeTemporaryScript (env : InvokeEnv) (fs : FS) (content : String) :
    Option Err × FS :=
  let file := tempFileName env
  match env.writeErr with
  | some e => (some e, osRemove fs file)
  | none =>
    match env.runErr with
    | some e => (some e, osRemove (file :: fs) file)
    | none => (none, osRemove (file :: fs) file)

/-- Method `buildXML` (toast.go lines 94-101): execute the template; on a template
error return the empty string together with the error, otherwise the
rendered text. The error outcome of `toastTemplate.Execute` is supplied as
`renderErr`. -/
def buildXML (renderErr : Option Err) (n : Notification) : String × Option Err :=
  match renderErr with
  | some e => ("", some e)
  | none => (executeTemplate n, none)

/-- Outcomes of the external calls made by one `Push` run: registry errors
(all ignored by the code), the template-execution error (discarded by
`Push`), and the invocation environment. -/
structure PushEnv where
  regCreateErr : Option Err
  regSetErr : Option Err
  regDeleteErr : Option Err
  renderErr : Option Err
  invokeEnv : InvokeEnv
deriving Repr, DecidableEq

/-- Method `Push` (toast.go lines 122-135): apply the registry step (errors
ignored), render the script (`xml, _ := n.buildXML()`, error discarded),
and return the result of `invokeTemporaryScript` on the rendered text,
paired with the resulting registry and filesystem. -/
def Push (env : PushEnv) (reg : Registry) (fs : FS) (n : Notification) :
    Option Err × Registry × FS :=
  let reg1 := pushRegistry reg n
  let xml := (buildXML env.renderErr n).1
  let r := invokeTemporaryScript env.invokeEnv fs xml
  (r.1, reg1, r.2)

/-! Substring containment, and concrete example inputs. -/

/-- Containment `containsStr s v` holds when `v` occurs contiguously (character for
character) inside `s`. -/
def containsStr (s v : String) : Prop :=
  v.data <:+: s.data

/-- An example notification whose fields contain markup metacharacters. -/
def exN : Notification :=
  { AppID := "My App", Title := "<Ti&tle>", Message := "\"msg\"", Icon := "go.png",
    Actions := [⟨"protocol", "Open", "app://open"⟩, ⟨"protocol", "Close", "x<>&\x27\"y"⟩],
    Persist := true }

/-- A second notification with field-for-field the same values as `exN`. -/
def exN2 : Notification :=
  { AppID := "My App", Title := "<Ti&tle>", Message := "\"msg\"", Icon := "go.png",
    Actions := [⟨"protocol", "Open", "app://open"⟩, ⟨"protocol", "Close", "x<>&\x27\"y"⟩],
    Persist := true }

/-- An example notification with every optional field empty. -/
def emptyN : Notification :=
  { AppID := "", Title := "", Message := "", Icon := "", Actions := [], Persist := false }

/-- An example notification that persists, and one that un-persists the
same AppID. -/
def persistN : Notification :=
  { AppID := "App", Title := "T", Message := "M", Icon := "", Actions := [], Persist := true }

/-- See `persistN`. -/
def unpersistN : Notification :=
  { AppID := "App", Title := "T", Message := "M", Icon := "", Actions := [], Persist := false }

/-- An invocation environment in which every external call succeeds. -/
def exEnv : InvokeEnv :=
  { uuidStr := "3dd0e440", uuidErr := none, tempDir := "C:\\Temp",
    writeErr := none, runErr := none }

/-- An invocation environment whose file write fails. -/
def exEnvW : InvokeEnv :=
  { uuidStr := "3dd0e440", uuidErr := none, tempDir := "C:\\Temp",
    writeErr := some "write failed", runErr := none }

/-- An invocation environment whose UUID generation fails. -/
def exEnvU : InvokeEnv :=
  { uuidStr := "00000000", uuidErr := some "crypto rand exhausted", tempDir := "C:\\Temp",
    writeErr := none, runErr := none }

/-- A push environment in which rendering fails and everything else
succeeds. -/
def exPushEnv : PushEnv :=
  { regCreateErr := none, regSetErr := none, regDeleteErr := none,
    renderErr := some "template failed", invokeEnv := exEnv }

/-- The text of `tHead` before the `$APP_ID` assignment. -/
def tHead0 : String :=
  "\n[Windows.UI.Notifications.ToastNotificationManager, Windows.UI.Notifications, ContentType = WindowsRuntime] | Out-Null\n[Windows.UI.Notifications.ToastNotification, Windows.UI.Notifications, ContentType = WindowsRuntime] | Out-Null\n[Windows.Data.Xml.Dom.XmlDocument, Windows.Data.Xml.Dom.XmlDocument, ContentType = WindowsRuntime] | Out-Null\n\n"

/-- The text of `t2` after the closing quote of the `$APP_ID` assignment. -/
def t2a : String :=
  "\n\n$template = @\"\n<toast>\n    <visual>\n        <binding template=\"ToastGeneric\">\n            "

/-! Helper lemmas. -/

theorem map_actionElem_eq (l : List Action) :
    l.map actionElem
      = l.map (fun a =>
          actPre1 ++ (a.«Type» ++ (actPre2 ++ (a.Label ++ (actPre3 ++ (a.Arguments ++ actPost)))))) := by
  induction l with
  | nil => rfl
  | cons a l ih => simp [actionElem, String.append_assoc, ih]

theorem executeTemplate_eq (n : Notification) :
    executeTemplate n = renderedScript n := by
  simp only [executeTemplate, toastTemplate, renderedScript, execNode, TField.get, AField.get,
    appIdValue, defaultAppID, iconSection, titleSection, messageSection, actionsSection,
    actionElem, List.isEmpty_iff, String.append_empty, String.empty_append,
    String.append_assoc]
  split
  · split
    · split
      · split
        · split <;> simp [String.append_assoc, map_actionElem_eq]
        · split <;> simp [String.append_assoc, map_actionElem_eq]
      · split
        · split <;> simp [String.append_assoc, map_actionElem_eq]
        · split <;> simp [String.append_assoc, map_actionElem_eq]
    · split
      · split
        · split <;> simp [String.append_assoc, map_actionElem_eq]
        · split <;> simp [String.append_assoc, map_actionElem_eq]
      · split
        · split <;> simp [String.append_assoc, map_actionElem_eq]
        · split <;> simp [String.append_assoc, map_actionElem_eq]
  · split
    · split
      · split
        · split <;> simp [String.append_assoc, map_actionElem_eq]
        · split <;> simp [String.append_assoc, map_actionElem_eq]
      · split
        · split <;> simp [String.append_assoc, map_actionElem_eq]
        · split <;> simp [String.append_assoc, map_actionElem_eq]
    · split
      · split
        · split <;> simp [String.append_assoc, map_actionElem_eq]
        · split <;> simp [String.append_assoc, map_actionElem_eq]
      · split
        · split <;> simp [String.append_assoc, map_actionElem_eq]
        · split <;> simp [String.append_assoc, map_actionElem_eq]

theorem containsStr_head (v q : String) : containsStr (v ++ q) v :=
  ⟨[], q.data, by simp⟩

theorem containsStr_app_left (s t v : String) (h : containsStr t v) :
    containsStr (s ++ t) v := by
  obtain ⟨a, b, hab⟩ := h
  exact ⟨s.data ++ a, b, by rw [String.data_append, ← hab]; simp [List.append_assoc]⟩

theorem containsStr_app_right (s t v : String) (h : containsStr s v) :
    containsStr (s ++ t) v := by
  obtain ⟨a, b, hab⟩ := h
  exact ⟨a, b ++ t.data, by rw [String.data_append, ← hab]; simp [List.append_assoc]⟩

theorem containsStr_trans (s t v : String) (h1 : containsStr t v)
    (h2 : containsStr s t) : containsStr s v :=
  List.IsInfix.trans h1 h2

theorem containsStr_join_of_mem (l : List Action) (a : Action) (h : a ∈ l) :
    containsStr (String.join (l.map actionElem)) (actionElem a) := by
  show (actionElem a).data <:+: (String.join (l.map actionElem)).data
  rw [String.data_join, List.map_map]
  exact List.infix_of_mem_flatten (List.mem_map_of_mem _ h)

set_option maxRecDepth 8192 in
theorem tHead_split : tHead = tHead0 ++ "$APP_ID = \x27" := by decide

set_option maxRecDepth 8192 in
theorem t2_split : t2 = "\x27" ++ t2a := by decide

theorem regHasKey_createKey (reg : Registry) (path : String) :
    regHasKey (createKey reg path) path = true := by
  unfold createKey
  split
  · assumption
  · simp [regHasKey]

theorem regHasKey_cons_false (kv : String × RegValues) (reg : Registry) (path : String)
    (hkv : (kv.1 == path) = false) (h : regHasKey (kv :: reg) path = true) :
    regHasKey reg path = true := by
  simp [regHasKey, List.any_cons, hkv] at h
  simpa [regHasKey] using h

theorem regGetValue_setDWordValue_self (reg : Registry) (path nm : String) (v : Nat)
    (h : regHasKey reg path = true) :
    regGetValue (setDWordValue reg path nm v) path nm = some v := by
  induction reg with
  | nil => simp [regHasKey] at h
  | cons kv reg ih =>
    by_cases hkv : (kv.1 == path) = true
    · simp [setDWordValue, regGetValue, List.find?, hkv]
    · have hkv' : (kv.1 == path) = false := by simp_all
      have h' := regHasKey_cons_false kv reg path hkv' h
      have := ih h'
      simpa [setDWordValue, regGetValue, List.find?, hkv', setDWordValue] using this

theorem regHasKey_deleteKey (reg : Registry) (path : String) :
    regHasKey (deleteKey reg path) path = false := by
  simp only [regHasKey, deleteKey]
  rw [List.any_eq_false]
  intro kv hkv
  have h := (List.mem_filter.mp hkv).2
  simp [bne] at h ⊢
  exact h

theorem osRemove_contains_false (fs : FS) (p : String) :
    (osRemove fs p).contains p = false := by
  simp only [osRemove, List.contains_eq_any_beq]
  rw [List.any_eq_false]
  intro q hq
  have h := (List.mem_filter.mp hq).2
  simp [bne] at h ⊢
  exact fun he => h he.symm


theorem containsStr_refl (s : String) : containsStr s s :=
  ⟨[], [], by simp⟩

theorem not_mem_osRemove (fs : FS) (p : String) : p ∉ osRemove fs p := by
  intro h
  have hp := (List.mem_filter.mp h).2
  simp [bne] at hp

theorem executeTemplate_assoc (n : Notification) :
    executeTemplate n
      = tHead ++ (appIdValue n.AppID ++ (t2 ++ (iconSection n.Icon ++ (t3
          ++ (titleSection n.Title ++ (t4 ++ (messageSection n.Message ++ (t5
          ++ (actionsSection n.Actions ++ tTail))))))))) := by
  rw [executeTemplate_eq]
  simp [renderedScript, String.append_assoc]

/-- C1: for every notification, the rendered script is the visual part
followed by the actions block and the script tail; the actions block is
absent when `Actions` is empty, and otherwise consists of exactly one
action element per button — `String.join (n.Actions.map actionElem)` — in
the order of the `Actions` sequence, each element carrying that button
`Type`, `Label` and `Arguments` verbatim; the number of rendered elements
equals the number of buttons. -/
theorem c1_actions_block (n : Notification) :
    executeTemplate n
      = (tHead ++ appIdValue n.AppID ++ t2 ++ iconSection n.Icon ++ t3
          ++ titleSection n.Title ++ t4 ++ messageSection n.Message ++ t5)
        ++ (if n.Actions.isEmpty then ""
            else actsOpen ++ String.join (n.Actions.map actionElem) ++ actsClose)
        ++ tTail
    ∧ (n.Actions.map actionElem).length = n.Actions.length := by
  refine ⟨?_, by simp⟩
  rw [executeTemplate_eq]
  simp [renderedScript, actionsSection, String.append_assoc]

/-- C2: `Push` returns exactly the error of `invokeTemporaryScript` on the
script text it computed, unchanged; a render error makes that text the
empty string (the error itself is discarded), no render error makes it the
rendered template; and the registry-step errors never influence the
result of `Push`. -/
theorem c2_push_error_propagation (env : PushEnv) (reg : Registry) (fs : FS)
    (n : Notification) :
    (Push env reg fs n).1
      = (invokeTemporaryScript env.invokeEnv fs (buildXML env.renderErr n).1).1
    ∧ (∀ e, env.renderErr = some e → (buildXML env.renderErr n).1 = "")
    ∧ (env.renderErr = none → (buildXML env.renderErr n).1 = executeTemplate n)
    ∧ (∀ e1 e2 e3 : Option Err,
        Push { env with regCreateErr := e1, regSetErr := e2, regDeleteErr := e3 } reg fs n
          = Push env reg fs n) := by
  refine ⟨rfl, ?_, ?_, fun e1 e2 e3 => rfl⟩
  · intro e he
    simp [buildXML, he]
  · intro he
    simp [buildXML, he]

/-- C2 witness: with rendering failing and all other calls succeeding,
`Push` returns the invoker result on the empty script text. -/
theorem c2_witness :
    (Push exPushEnv [] [] exN).1
      = (invokeTemporaryScript exEnv [] (buildXML (some "template failed") exN).1).1
    ∧ (buildXML (some "template failed") exN).1 = "" := by
  obtain ⟨h1, h2, -, -⟩ := c2_push_error_propagation exPushEnv [] [] exN
  exact ⟨h1, h2 "template failed" rfl⟩

/-- C3: the rendered script decomposes into sections, and the icon, title
and message sections are the empty string exactly when the corresponding
field is empty, so no image/text element is emitted for an empty field. -/
theorem c3_empty_fields_omit_elements (n : Notification) :
    executeTemplate n
      = tHead ++ appIdValue n.AppID ++ t2 ++ iconSection n.Icon ++ t3
        ++ titleSection n.Title ++ t4 ++ messageSection n.Message ++ t5
        ++ actionsSection n.Actions ++ tTail
    ∧ (n.Title = "" → titleSection n.Title = "")
    ∧ (n.Message = "" → messageSection n.Message = "")
    ∧ (n.Icon = "" → iconSection n.Icon = "") := by
  refine ⟨executeTemplate_eq n, ?_, ?_, ?_⟩ <;> intro h <;>
    simp [titleSection, messageSection, iconSection, h]

/-- C3 witness: on the all-empty notification, every optional section is
the empty string. -/
theorem c3_witness :
    executeTemplate emptyN
      = tHead ++ appIdValue "" ++ t2 ++ iconSection "" ++ t3 ++ titleSection "" ++ t4
        ++ messageSection "" ++ t5 ++ actionsSection [] ++ tTail
    ∧ titleSection "" = "" ∧ messageSection "" = "" ∧ iconSection "" = "" := by
  obtain ⟨h1, h2, h3, h4⟩ := c3_empty_fields_omit_elements emptyN
  exact ⟨h1, h2 rfl, h3 rfl, h4 rfl⟩

/-- C4: when `AppID` is empty the `$APP_ID` declaration of the rendered script
references the fixed default identifier `io.github.go-toast.toast`; when it
is non-empty, the given `AppID` is substituted instead. -/
theorem c4_appid_default (n : Notification) :
    (n.AppID = "" →
        containsStr (executeTemplate n) ("$APP_ID = \x27" ++ defaultAppID ++ "\x27"))
    ∧ (n.AppID ≠ "" →
        containsStr (executeTemplate n) ("$APP_ID = \x27" ++ n.AppID ++ "\x27")) := by
  have hdecomp : executeTemplate n
      = tHead0 ++ (("$APP_ID = \x27" ++ appIdValue n.AppID ++ "\x27")
          ++ (t2a ++ (iconSection n.Icon ++ (t3 ++ (titleSection n.Title ++ (t4
              ++ (messageSection n.Message ++ (t5
              ++ (actionsSection n.Actions ++ tTail))))))))) := by
    rw [executeTemplate_eq]
    simp [renderedScript, tHead_split, t2_split, String.append_assoc]
  constructor
  · intro h
    rw [hdecomp]
    apply containsStr_app_left
    apply containsStr_app_right
    rw [show appIdValue n.AppID = defaultAppID from by simp [appIdValue, h]]
    exact containsStr_refl _
  · intro h
    rw [hdecomp]
    apply containsStr_app_left
    apply containsStr_app_right
    rw [show appIdValue n.AppID = n.AppID from by simp [appIdValue, h]]
    exact containsStr_refl _

/-- C4 witness: the default identifier line appears for an empty `AppID`,
and the given identifier line appears for a non-empty one. -/
theorem c4_witness :
    containsStr (executeTemplate emptyN) ("$APP_ID = \x27" ++ defaultAppID ++ "\x27")
    ∧ containsStr (executeTemplate exN) ("$APP_ID = \x27" ++ "My App" ++ "\x27") :=
  ⟨(c4_appid_default emptyN).1 rfl, (c4_appid_default exN).2 (by decide)⟩

/-- C5: no escaping or other transformation is applied during rendering:
every non-empty field value, and the `Type`, `Label` and
`Arguments`, occurs character for character in the rendered script. -/
theorem c5_verbatim_fields (n : Notification) :
    (n.AppID ≠ "" → containsStr (executeTemplate n) n.AppID)
    ∧ (n.Title ≠ "" → containsStr (executeTemplate n) n.Title)
    ∧ (n.Message ≠ "" → containsStr (executeTemplate n) n.Message)
    ∧ (n.Icon ≠ "" → containsStr (executeTemplate n) n.Icon)
    ∧ (∀ a ∈ n.Actions,
        containsStr (executeTemplate n) a.«Type»
        ∧ containsStr (executeTemplate n) a.Label
        ∧ containsStr (executeTemplate n) a.Arguments) := by
  have hr := executeTemplate_assoc n
  refine ⟨?_, ?_, ?_, ?_, ?_⟩
  · intro h
    rw [hr]
    apply containsStr_app_left
    apply containsStr_app_right
    rw [show appIdValue n.AppID = n.AppID from by simp [appIdValue, h]]
    exact containsStr_refl _
  · intro h
    rw [hr]
    apply containsStr_app_left
    apply containsStr_app_left
    apply containsStr_app_left
    apply containsStr_app_left
    apply containsStr_app_left
    apply containsStr_app_right
    rw [show titleSection n.Title = titlePre ++ n.Title ++ titlePost from by
      simp [titleSection, h]]
    apply containsStr_app_right
    apply containsStr_app_left
    exact containsStr_refl _
  · intro h
    rw [hr]
    apply containsStr_app_left
    apply containsStr_app_left
    apply containsStr_app_left
    apply containsStr_app_left
    apply containsStr_app_left
    apply containsStr_app_left
    apply containsStr_app_left
    apply containsStr_app_right
    rw [show messageSection n.Message = msgPre ++ n.Message ++ msgPost from by
      simp [messageSection, h]]
    apply containsStr_app_right
    apply containsStr_app_left
    exact containsStr_refl _
  · intro h
    rw [hr]
    apply containsStr_app_left
    apply containsStr_app_left
    apply containsStr_app_left
    apply containsStr_app_right
    rw [show iconSection n.Icon = iconPre ++ n.Icon ++ iconPost from by
      simp [iconSection, h]]
    apply containsStr_app_right
    apply containsStr_app_left
    exact containsStr_refl _
  · intro a ha
    have hne : n.Actions.isEmpty = false := by
      cases hl : n.Actions with
      | nil => rw [hl] at ha; cases ha
      | cons x xs => rfl
    have hsec : containsStr (executeTemplate n) (String.join (n.Actions.map actionElem)) := by
      rw [hr]
      apply containsStr_app_left
      apply containsStr_app_left
      apply containsStr_app_left
      apply containsStr_app_left
      apply containsStr_app_left
      apply containsStr_app_left
      apply containsStr_app_left
      apply containsStr_app_left
      apply containsStr_app_left
      apply containsStr_app_right
      rw [show actionsSection n.Actions
            = actsOpen ++ String.join (n.Actions.map actionElem) ++ actsClose from by
        simp [actionsSection, hne]]
      apply containsStr_app_right
      apply containsStr_app_left
      exact containsStr_refl _
    have helem : containsStr (executeTemplate n) (actionElem a) :=
      containsStr_trans _ _ _ (containsStr_join_of_mem n.Actions a ha) hsec
    refine ⟨?_, ?_, ?_⟩
    · refine containsStr_trans _ _ _ ?_ helem
      rw [actionElem]
      apply containsStr_app_right
      apply containsStr_app_right
      apply containsStr_app_right
      apply containsStr_app_right
      apply containsStr_app_right
      apply containsStr_app_left
      exact containsStr_refl _
    · refine containsStr_trans _ _ _ ?_ helem
      rw [actionElem]
      apply containsStr_app_right
      apply containsStr_app_right
      apply containsStr_app_right
      apply containsStr_app_left
      exact containsStr_refl _
    · refine containsStr_trans _ _ _ ?_ helem
      rw [actionElem]
      apply containsStr_app_right
      apply containsStr_app_left
      exact containsStr_refl _

/-- C5 witness: the metacharacter-laden title and the action arguments of
`exN` occur verbatim in its rendered script. -/
theorem c5_witness :
    containsStr (executeTemplate exN) "<Ti&tle>"
    ∧ containsStr (executeTemplate exN) "app://open" := by
  obtain ⟨-, hT, -, -, hAct⟩ := c5_verbatim_fields exN
  exact ⟨hT (by decide), (hAct ⟨"protocol", "Open", "app://open"⟩ (by decide)).2.2⟩

/-- C6: on every exit path — write failure, run failure, success — the
temporary file built by `invokeTemporaryScript` is gone from the resulting
filesystem. -/
theorem c6_temp_file_removed (env : InvokeEnv) (fs : FS) (content : String) :
    ((invokeTemporaryScript env fs content).2).contains (tempFileName env) = false := by
  cases hw : env.writeErr <;> cases hr : env.runErr <;>
    simp [invokeTemporaryScript, hw, hr, osRemove_contains_false, not_mem_osRemove]

/-- C7: `invokeTemporaryScript` errors exactly when the write fails or the
process fails to start or exits non-zero; a write error is returned
unchanged, and with a successful write the result is exactly the process
error (`none` on a zero exit status — no exit code is returned). -/
theorem c7_invoke_error_iff (env : InvokeEnv) (fs : FS) (content : String) :
    ((invokeTemporaryScript env fs content).1 = none
        ↔ env.writeErr = none ∧ env.runErr = none)
    ∧ (∀ e, env.writeErr = some e → (invokeTemporaryScript env fs content).1 = some e)
    ∧ (env.writeErr = none → (invokeTemporaryScript env fs content).1 = env.runErr) := by
  cases hw : env.writeErr <;> cases hr : env.runErr <;>
    simp [invokeTemporaryScript, hw, hr]

/-- C7 witness: all calls succeeding yields no error; a failing write
yields exactly the write error. -/
theorem c7_witness :
    (invokeTemporaryScript exEnv [] "script").1 = none
    ∧ (invokeTemporaryScript exEnvW [] "script").1 = some "write failed" := by
  refine ⟨((c7_invoke_error_iff exEnv [] "script").1).mpr ⟨rfl, rfl⟩, ?_⟩
  exact (c7_invoke_error_iff exEnvW [] "script").2.1 "write failed" rfl

/-- C8: a `Push` with `Persist = true` leaves the key of the AppID under the
fixed settings path holding `ShowInActionCenter = 1`; with
`Persist = false` it leaves no such key; and `Persist = true` followed by
`Persist = false` for the same AppID leaves no persistence key. -/
theorem c8_persistence_registry (env : PushEnv) (reg : Registry) (fs : FS)
    (n : Notification) :
    (n.Persist = true →
        regGetValue (Push env reg fs n).2.1 (settingsPath ++ n.AppID) "ShowInActionCenter"
          = some 1)
    ∧ (n.Persist = false →
        regHasKey (Push env reg fs n).2.1 (settingsPath ++ n.AppID) = false)
    ∧ (∀ m : Notification, m.AppID = n.AppID → n.Persist = true → m.Persist = false →
        regHasKey (Push env (Push env reg fs n).2.1 (Push env reg fs n).2.2 m).2.1
          (settingsPath ++ n.AppID) = false) := by
  refine ⟨?_, ?_, ?_⟩
  · intro h
    show regGetValue (pushRegistry reg n) _ _ = some 1
    rw [pushRegistry, if_pos h]
    exact regGetValue_setDWordValue_self _ _ _ _ (regHasKey_createKey _ _)
  · intro h
    show regHasKey (pushRegistry reg n) _ = false
    rw [pushRegistry, if_neg (by simp [h])]
    exact regHasKey_deleteKey _ _
  · intro m hA hn hm
    show regHasKey (pushRegistry (pushRegistry reg n) m) _ = false
    rw [pushRegistry, if_neg (by simp [hm]), hA]
    exact regHasKey_deleteKey _ _

/-- C8 witness: persisting `persistN` records `ShowInActionCenter = 1`
under its key, and then un-persisting the same AppID removes the key. -/
theorem c8_witness :
    regGetValue (Push exPushEnv [] [] persistN).2.1 (settingsPath ++ "App")
        "ShowInActionCenter" = some 1
    ∧ regHasKey
        (Push exPushEnv (Push exPushEnv [] [] persistN).2.1
          (Push exPushEnv [] [] persistN).2.2 unpersistN).2.1
        (settingsPath ++ "App") = false := by
  obtain ⟨h1, -, h3⟩ := c8_persistence_registry exPushEnv [] [] persistN
  exact ⟨h1 rfl, h3 unpersistN rfl rfl rfl⟩

/-- C9: rendering is a pure, deterministic function of the request — two
structurally equal notifications render to byte-identical output (and
`buildXML` takes no state and changes none). -/
theorem c9_render_deterministic (n m : Notification) (e : Option Err)
    (hA : n.AppID = m.AppID) (hT : n.Title = m.Title) (hM : n.Message = m.Message)
    (hI : n.Icon = m.Icon) (hAc : n.Actions = m.Actions) (hP : n.Persist = m.Persist) :
    buildXML e n = buildXML e m := by
  have h : n = m := by cases n; cases m; simp_all
  rw [h]

/-- C9 witness: the field-for-field equal `exN` and `exN2` render
identically. -/
theorem c9_witness : buildXML none exN = buildXML none exN2 :=
  c9_render_deterministic exN exN2 none rfl rfl rfl rfl rfl rfl

/-- C10: a failing UUID generation does not crash `invokeTemporaryScript`
and does not change its behavior — the error is discarded and the
generated identifier is still used to build the temporary file name. -/
theorem c10_uuid_error_ignored (env : InvokeEnv) (fs : FS) (content : String) (e : Err)
    (h : env.uuidErr = some e) :
    invokeTemporaryScript env fs content
      = invokeTemporaryScript { env with uuidErr := none } fs content
    ∧ tempFileName env = env.tempDir ++ "\\" ++ env.uuidStr ++ ".ps1" := by
  exact ⟨rfl, rfl⟩

/-- C10 witness: with UUID generation failing in `exEnvU`, invocation is
unchanged and the file name still uses the drawn identifier. -/
theorem c10_witness :
    invokeTemporaryScript exEnvU [] "script"
      = invokeTemporaryScript { exEnvU with uuidErr := none } [] "script"
    ∧ tempFileName exEnvU = "C:\\Temp" ++ "\\" ++ "00000000" ++ ".ps1" :=
  c10_uuid_error_ignored exEnvU [] "script" "crypto rand exhausted" rfl

end toast
